import Mathlib

/-!
Verification of the training/validation orchestrator of
`train_descriptor.py` (dense descriptor training).

The script is embedded shallowly:

* External collaborators (the descriptor network, the dataset loader, the
  response-map generator, the loss and accuracy modules, tensorboard,
  tqdm, SIFT) are abstracted behind the data the orchestrator consumes: a
  training batch carries the two directional relative-response losses the
  external loss module produces for it and the gradient its backward pass
  accumulates into the parameters; a validation batch carries the six
  accuracy ratios as a function of the model parameters.
* Model parameters, the SGD momentum buffer and the gradient buffer are
  abstracted to single rationals; the `state_dict` bookkeeping of the
  checkpoint-restore logic is modelled separately as an association list.
* Python floats are modelled as `FV` (a rational, NaN, or a signed
  infinity); the exceptions the script can raise (`IOError`, `OSError`,
  `NameError`, `ZeroDivisionError`) are modelled with `Except`.
* Each loop iteration also records the list of observable operations it
  performs (response-map generation, gradient operations, optimizer step,
  display, checkpoint persistence), in program order.
-/

namespace DenseDescriptor

/-- A Python float value: a finite rational, NaN, or a signed infinity. -/
inductive FV
  | fin (q : ℚ)
  | nan
  | pinf
  | ninf
  deriving DecidableEq

/-- `math.isnan(x) or math.isinf(x)` (line 232). -/
def FV.isNanOrInf : FV → Bool
  | .fin _ => false
  | _ => true

/-- The rational value of a finite float (`.item()`); junk on non-finite
input. -/
def FV.val : FV → ℚ
  | .fin q => q
  | _ => 0

/-- IEEE-style addition on `FV` (`inf + -inf = nan`). -/
def FV.add : FV → FV → FV
  | .nan, _ => .nan
  | _, .nan => .nan
  | .pinf, .ninf => .nan
  | .ninf, .pinf => .nan
  | .pinf, _ => .pinf
  | _, .pinf => .pinf
  | .ninf, _ => .ninf
  | _, .ninf => .ninf
  | .fin a, .fin b => .fin (a + b)

/-- IEEE-style multiplication of a finite scalar with an `FV`
(`0 * inf = nan`). -/
def FV.smul (c : ℚ) : FV → FV
  | .fin a => .fin (c * a)
  | .nan => .nan
  | .pinf => if 0 < c then .pinf else if c < 0 then .ninf else .nan
  | .ninf => if 0 < c then .ninf else if c < 0 then .pinf else .nan

/-- `rr_loss = args.rr_weight * (0.5 * rr_loss_1 + 0.5 * rr_loss_2)`
(line 229). -/
def combinedLoss (w : ℚ) (l1 l2 : FV) : FV :=
  FV.smul w (FV.add (FV.smul (1/2) l1) (FV.smul (1/2) l2))

/-- Python exceptions raised by the script. -/
inductive Err
  | ioError
  | osError
  | nameError
  | zeroDivisionError
  deriving DecidableEq

/-- Observable operations of one loop iteration, in program order. -/
inductive Event
  | respGen
  | zeroGrad
  | backward
  | clipNorm (c : ℚ)
  | optStep
  | display
  | saveCheckpoint
  deriving DecidableEq

/-- Gradient/optimizer operations (the update sequence of an iteration). -/
def Event.isUpdate : Event → Bool
  | .zeroGrad => true
  | .backward => true
  | .clipNorm _ => true
  | .optStep => true
  | _ => false

/-- One training batch, with the externally produced quantities the
orchestrator consumes: the two directional relative-response losses
(`rr_loss_1`, `rr_loss_2`), the gradient that `rr_loss.backward()`
accumulates into the (abstracted) parameters, and the loaded batch size
(`colors_1.shape[0]`). -/
structure Batch where
  l1 : FV
  l2 : FV
  grad : ℚ
  size : Nat
  deriving DecidableEq

/-- The six ratios returned by the two `matching_accuracy_metric` calls of
one validation iteration (lines 319-322). -/
structure Ratios where
  r1 : ℚ
  r2 : ℚ
  r3 : ℚ
  r4 : ℚ
  r5 : ℚ
  r6 : ℚ
  deriving DecidableEq

/-- One validation batch: the accuracy ratios the external metric computes,
as a function of the (abstracted) model parameters, and the loaded batch
size. -/
structure VBatch where
  ratios : ℚ → Ratios
  size : Nat

/-- Static configuration of a run (CLI arguments plus external
collaborators): the loss weight, batch size, display and validation
intervals, the epoch bound, the cyclic learning-rate schedule as a
function of the global step (`models.CyclicLR`, external), and the batch
sequences the train/validation loaders yield under a given RNG seed. -/
structure Config where
  rrWeight : ℚ
  batchSize : Nat
  displayInterval : Nat
  validationInterval : Nat
  numEpoch : Nat
  sched : Nat → ℚ
  trainData : Int → List Batch
  valData : Int → List VBatch

/-- Mutable state of the training process. `meanRRLoss` and the three
`meanAcc` accumulators are `Option`: `none` models a Python variable that
has not been assigned yet in the process (reading it raises `NameError`);
these variables live at script scope and are never reset between epochs.
`rng` is the process-wide random-generator state, `progress` the counter
of the current tqdm bar. -/
structure TState where
  params : ℚ
  vel : ℚ
  grads : ℚ
  step : Nat
  validationStep : Nat
  meanRRLoss : Option ℚ
  meanAcc1 : Option ℚ
  meanAcc2 : Option ℚ
  meanAcc3 : Option ℚ
  rng : Int
  progress : Nat
  deriving DecidableEq

/-- Per-epoch reseed value (lines 185-187): `10086 + cur_epoch`. -/
def epochSeed (curEpoch : Nat) : Int := 10086 + curEpoch

/-- The fixed seed installed before every validation pass (lines
275-277). -/
def validationSeed : Int := 10086

/-- `torch.nn.utils.clip_grad_norm_(parameters, c)` on the abstracted
scalar gradient: rescale the gradient to norm `c` when its norm exceeds
`c`. -/
def clipGradNorm (c g : ℚ) : ℚ :=
  if c < |g| then c * g / |g| else g

/-- One `optimizer.step()` of `torch.optim.SGD(..., momentum=0.9)`
(line 149): `v' = 0.9 * v + g`, `p' = p - lr * v'`. -/
def sgdStep (lr : ℚ) (s : TState) : TState :=
  { s with vel := (9/10) * s.vel + s.grads,
           params := s.params - lr * ((9/10) * s.vel + s.grads) }

/-- One training iteration (lines 204-264) on batch index `batchIdx` of
the current epoch: apply the scheduled learning rate, run the two forward
passes and the two `response_map_generator` calls, combine the two
relative-response losses, then either take the NaN/Inf guard branch
(zero-grad, backward, zero-grad, advance the progress bar, `continue`) or
perform the gradient update, maintain the running-mean loss, display
periodically and advance `step`. Returns the successor state and the
events of the iteration, or the exception the iteration raises. -/
def trainIter (cfg : Config) (batchIdx : Nat) (b : Batch) (s : TState) :
    Except Err (TState × List Event) :=
  -- line 205: lr_scheduler.batch_step(batch_iteration=step)
  let lr := cfg.sched s.step
  -- lines 216-222: two forward passes, two response_map_generator calls
  let ev0 : List Event := [.respGen, .respGen]
  -- lines 224-229: rr_loss = rr_weight * (0.5 * rr_loss_1 + 0.5 * rr_loss_2)
  let rrLoss := combinedLoss cfg.rrWeight b.l1 b.l2
  if rrLoss.isNanOrInf then
    -- lines 232-237: zero_grad; backward; zero_grad;
    -- tq.update(args.batch_size); continue
    let s1 := { s with grads := 0 }
    let s2 := { s1 with grads := s1.grads + b.grad }
    let s3 := { s2 with grads := 0 }
    .ok ({ s3 with progress := s3.progress + cfg.batchSize },
         ev0 ++ [.zeroGrad, .backward, .zeroGrad])
  else
    -- lines 238-242: zero_grad; backward; clip_grad_norm_(·, 10.0); step
    let s1 := { s with grads := 0 }
    let s2 := { s1 with grads := s1.grads + b.grad }
    let s3 := { s2 with grads := clipGradNorm 10 s2.grads }
    let s4 := sgdStep lr s3
    -- lines 244-247: running mean of the loss
    let meanRes : Except Err ℚ :=
      if batchIdx = 0 then .ok rrLoss.val
      else
        match s4.meanRRLoss with
        | some m => .ok ((m * (batchIdx : ℚ) + rrLoss.val) / ((batchIdx : ℚ) + 1))
        | none => .error .nameError
    match meanRes with
    | .error e => .error e
    | .ok m =>
      let s5 := { s4 with meanRRLoss := some m }
      -- lines 250-258: periodic display (batch % display_interval == 0)
      if cfg.displayInterval = 0 then .error .zeroDivisionError
      else
        let evD := if batchIdx % cfg.displayInterval = 0 then [Event.display] else []
        -- lines 260-264: step += 1; tq.update(colors_1.shape[0]); logging
        .ok ({ s5 with step := s5.step + 1, progress := s5.progress + b.size },
             ev0 ++ [.zeroGrad, .backward, .clipNorm 10, .optStep] ++ evD)

/-- The training loop over the loader's batches (lines 192-264), with
`batchIdx` enumerating from the given index. -/
def runBatches (cfg : Config) (batches : List Batch) (batchIdx : Nat) (s : TState) :
    Except Err (TState × List Event) :=
  match batches with
  | [] => .ok (s, [])
  | b :: rest =>
    match trainIter cfg batchIdx b s with
    | .error e => .error e
    | .ok (s1, ev1) =>
      match runBatches cfg rest (batchIdx + 1) s1 with
      | .error e => .error e
      | .ok (s2, ev2) => .ok (s2, ev1 ++ ev2)

/-- One validation iteration (lines 279-344): forward passes and the two
`response_map_generator` calls, periodic display, the two
`matching_accuracy_metric` calls averaged pairwise, the three running
accuracy means, then `validation_step += 1` and the progress-bar update. -/
def valIter (cfg : Config) (batchIdx : Nat) (b : VBatch) (s : TState) :
    Except Err (TState × List Event) :=
  -- lines 300-306: forward and response maps
  let ev0 : List Event := [.respGen, .respGen]
  -- lines 309-317: periodic display (batch % display_interval == 0)
  if cfg.displayInterval = 0 then .error .zeroDivisionError
  else
    let evD := if batchIdx % cfg.displayInterval = 0 then [Event.display] else []
    -- lines 319-325: pairwise-averaged accuracies
    let r := b.ratios s.params
    let a1 := (1/2) * r.r1 + (1/2) * r.r4
    let a2 := (1/2) * r.r2 + (1/2) * r.r5
    let a3 := (1/2) * r.r3 + (1/2) * r.r6
    -- lines 327-334: running means of the three accuracies
    let means : Except Err (ℚ × ℚ × ℚ) :=
      if batchIdx = 0 then .ok (a1, a2, a3)
      else
        match s.meanAcc1, s.meanAcc2, s.meanAcc3 with
        | some m1, some m2, some m3 =>
          .ok ((m1 * (batchIdx : ℚ) + a1) / ((batchIdx : ℚ) + 1),
               (m2 * (batchIdx : ℚ) + a2) / ((batchIdx : ℚ) + 1),
               (m3 * (batchIdx : ℚ) + a3) / ((batchIdx : ℚ) + 1))
        | _, _, _ => .error .nameError
    match means with
    | .error e => .error e
    | .ok (m1, m2, m3) =>
      -- lines 336-344: validation_step += 1; tq.update(colors_1.shape[0])
      .ok ({ s with meanAcc1 := some m1, meanAcc2 := some m2, meanAcc3 := some m3,
                    validationStep := s.validationStep + 1,
                    progress := s.progress + b.size },
           ev0 ++ evD)

/-- The validation loop over the loader's batches (lines 279-344). -/
def runValBatches (cfg : Config) (batches : List VBatch) (batchIdx : Nat) (s : TState) :
    Except Err (TState × List Event) :=
  match batches with
  | [] => .ok (s, [])
  | b :: rest =>
    match valIter cfg batchIdx b s with
    | .error e => .error e
    | .ok (s1, ev1) =>
      match runValBatches cfg rest (batchIdx + 1) s1 with
      | .error e => .error e
      | .ok (s2, ev2) => .ok (s2, ev1 ++ ev2)

/-- The checkpoint written at the end of a validating epoch (lines
346-351), together with the values embedded in its file name.

Modelled from the spec: `utils.save_model` is not under src/; per the
spec it persists a record containing the model weights, the optimizer
state, the epoch number passed to it, the global step and the validation
metric passed to it, at the given path. -/
structure SavedCheckpoint where
  model : ℚ
  optimizer : ℚ
  epoch : Nat
  step : Nat
  validationLoss : ℚ
  fileEpoch : Nat
  fileM1 : ℚ
  fileM2 : ℚ
  fileM3 : ℚ
  deriving DecidableEq

/-- The validation pass of one validating epoch (lines 271-351):
`model.eval()`, a fresh progress bar, reseed with the fixed validation
seed, iterate the validation loader (whose batches are drawn under that
seed), then persist exactly one checkpoint whose file name embeds
`cur_epoch` and the three mean accuracies and whose contents carry the
model, the optimizer state, `cur_epoch + 1`, `step` and
`mean_accuracy_1`. -/
def validationPhase (cfg : Config) (curEpoch : Nat) (s : TState) :
    Except Err (TState × List Event × SavedCheckpoint) :=
  let s0 := { s with rng := validationSeed, progress := 0 }
  match runValBatches cfg (cfg.valData validationSeed) 0 s0 with
  | .error e => .error e
  | .ok (s1, ev) =>
    -- lines 346-348: file name from cur_epoch and the three mean accuracies
    match s1.meanAcc1, s1.meanAcc2, s1.meanAcc3 with
    | some m1, some m2, some m3 =>
      .ok (s1, ev ++ [.saveCheckpoint],
           { model := s1.params, optimizer := s1.vel, epoch := curEpoch + 1,
             step := s1.step, validationLoss := m1,
             fileEpoch := curEpoch, fileM1 := m1, fileM2 := m2, fileM3 := m3 })
    | _, _, _ => .error .nameError

/-- Result of one epoch of the outer loop. -/
structure EpochResult where
  state : TState
  events : List Event
  ckpt : Option SavedCheckpoint

/-- One iteration of the epoch loop (lines 183-351): reseed with
`10086 + cur_epoch`, a fresh progress bar, train over the loader's batches
(drawn under the epoch seed), then validate and checkpoint only when
`cur_epoch % validation_interval == 0` (line 268), otherwise `continue`
directly to the next epoch. -/
def runEpoch (cfg : Config) (curEpoch : Nat) (s : TState) :
    Except Err EpochResult :=
  let s0 := { s with rng := epochSeed curEpoch, progress := 0 }
  match runBatches cfg (cfg.trainData (epochSeed curEpoch)) 0 s0 with
  | .error e => .error e
  | .ok (s1, ev1) =>
    if cfg.validationInterval = 0 then .error .zeroDivisionError
    else if curEpoch % cfg.validationInterval ≠ 0 then .ok ⟨s1, ev1, none⟩
    else
      match validationPhase cfg curEpoch s1 with
      | .error e => .error e
      | .ok (s2, ev2, ck) => .ok ⟨s2, ev1 ++ ev2, some ck⟩

/-- Result of a whole run: final state, all events, all persisted
checkpoints in order. -/
structure RunResult where
  state : TState
  events : List Event
  ckpts : List SavedCheckpoint

/-- The epoch loop (line 183) over an explicit list of epoch indices. -/
def runEpochs (cfg : Config) (epochs : List Nat) (s : TState) :
    Except Err RunResult :=
  match epochs with
  | [] => .ok ⟨s, [], []⟩
  | e :: rest =>
    match runEpoch cfg e s with
    | .error err => .error err
    | .ok r =>
      match runEpochs cfg rest r.state with
      | .error err => .error err
      | .ok r2 =>
        .ok ⟨r2.state, r.events ++ r2.events,
             (match r.ckpt with | some c => [c] | none => []) ++ r2.ckpts⟩

/-- An association list of named tensors (a PyTorch `state_dict`);
insertion-ordered, like a Python dict. -/
abbrev StateDict := List (String × ℚ)

/-- First value bound to key `k` (Python dict lookup). -/
def dictLookup (k : String) : StateDict → Option ℚ
  | [] => none
  | kv :: rest => if kv.1 = k then some kv.2 else dictLookup k rest

/-- `{k: v for k, v in pre.items() if k in base}` (line 167): keep only
the checkpoint entries whose key the fresh model also has. -/
def dictFilterKeys (pre base : StateDict) : StateDict :=
  pre.filter fun kv => (dictLookup kv.1 base).isSome

/-- Python `base.update(upd)` (line 168): existing keys take `upd`'s
value in place, keys new to `base` are appended. -/
def dictUpdate (base upd : StateDict) : StateDict :=
  (base.map fun kv =>
    match dictLookup kv.1 upd with
    | some v => (kv.1, v)
    | none => kv)
  ++ upd.filter fun kv => (dictLookup kv.1 base).isNone

/-- Content of a checkpoint file on disk. The loader (lines 163-169)
reads the `step`, `epoch` and `model` entries; the `optimizer` and
`validation_loss` entries written by `save_model` are never read back. -/
structure CheckpointFile where
  step : Nat
  epoch : Nat
  model : StateDict
  optimizer : ℚ
  validationLoss : ℚ
  deriving DecidableEq

/-- The training state right after initialization (lines 160-178). -/
structure InitState where
  epoch : Nat
  step : Nat
  validationStep : Nat
  modelState : StateDict
  optimizerVel : ℚ
  deriving DecidableEq

/-- Lines 160-178: when resume is requested, take `step` and `epoch` from
the checkpoint file and merge the file's model entries into the fresh
`state_dict` by key name; `file = none` models a `trained_model_path`
that does not exist (line 173 raises `OSError`). The optimizer is never
restored (its fresh momentum buffer is zero), and `validation_step` is
set to 0 unconditionally (line 178). -/
def initTrainingState (loadTrainedModel : Bool) (file : Option CheckpointFile)
    (freshModel : StateDict) : Except Err InitState :=
  if loadTrainedModel then
    match file with
    | some pre =>
      .ok { epoch := pre.epoch, step := pre.step, validationStep := 0,
            modelState := dictUpdate freshModel (dictFilterKeys pre.model freshModel),
            optimizerVel := 0 }
    | none => .error .osError
  else
    .ok { epoch := 0, step := 0, validationStep := 0,
          modelState := freshModel, optimizerVel := 0 }

/-- The command-line facts the early validation code inspects
(lines 77-90). -/
structure Args where
  loadTrainedModel : Bool
  trainedModelPath : Option String
  dataRootExists : Bool
  deriving DecidableEq

/-- Lines 77-90: resume requested without a path raises `IOError`
(line 82); a data root that does not exist raises `IOError` (line 90). -/
def validateArgs (a : Args) : Except Err (Option String) :=
  if a.loadTrainedModel then
    match a.trainedModelPath with
    | some p =>
      if a.dataRootExists then .ok (some p) else .error .ioError
    | none => .error .ioError
  else
    if a.dataRootExists then .ok none else .error .ioError

/-- The whole script after argument parsing: validate the arguments
(lines 77-90), initialize or restore the training state (lines 160-178),
then run the epoch loop `range(epoch, num_epoch + 1)` (line 183).
`params0` abstracts the model parameters after network construction and
the possible restore; the initial RNG seed is 10085 (lines 93-97). -/
def runProgram (a : Args) (file : Option CheckpointFile) (freshModel : StateDict)
    (cfg : Config) (params0 : ℚ) : Except Err RunResult :=
  match validateArgs a with
  | .error e => .error e
  | .ok _ =>
    match initTrainingState a.loadTrainedModel file freshModel with
    | .error e => .error e
    | .ok ini =>
      runEpochs cfg (List.range' ini.epoch (cfg.numEpoch + 1 - ini.epoch))
        { params := params0, vel := ini.optimizerVel, grads := 0,
          step := ini.step, validationStep := ini.validationStep,
          meanRRLoss := none, meanAcc1 := none, meanAcc2 := none,
          meanAcc3 := none, rng := 10085, progress := 0 }

/-! ### Concrete fixtures used by witnesses and counterexamples -/

/-- A small concrete configuration. -/
def cfgW : Config :=
  { rrWeight := 1, batchSize := 2, displayInterval := 10, validationInterval := 2,
    numEpoch := 0, sched := fun _ => 0, trainData := fun _ => [],
    valData := fun _ => [] }

/-- A concrete training state with the running-mean loss assigned. -/
def sW : TState :=
  { params := 3, vel := 0, grads := 0, step := 5, validationStep := 0,
    meanRRLoss := some 2, meanAcc1 := none, meanAcc2 := none, meanAcc3 := none,
    rng := 10085, progress := 0 }

/-- A batch whose combined loss is NaN. -/
def bNanW : Batch := { l1 := .nan, l2 := .fin 1, grad := 0, size := 2 }

/-- A batch whose combined loss is finite (value 1). -/
def bFinW : Batch := { l1 := .fin 1, l2 := .fin 1, grad := 0, size := 2 }

/-! ### Helper lemmas about one training iteration -/

/-- Every training iteration that completes emits one of three event
traces: the NaN-guard trace, or the gradient-update trace with or without
the periodic display. -/
theorem trainIter_ok_events (cfg : Config) (batchIdx : Nat) (b : Batch) (s : TState)
    (s' : TState) (ev : List Event)
    (hok : trainIter cfg batchIdx b s = .ok (s', ev)) :
    ev = [.respGen, .respGen, .zeroGrad, .backward, .zeroGrad]
    ∨ ev = [.respGen, .respGen, .zeroGrad, .backward, .clipNorm 10, .optStep]
    ∨ ev = [.respGen, .respGen, .zeroGrad, .backward, .clipNorm 10, .optStep,
            .display] := by
  by_cases hnan : (combinedLoss cfg.rrWeight b.l1 b.l2).isNanOrInf = true
  · have hrun : trainIter cfg batchIdx b s =
        .ok ({ s with grads := 0, progress := s.progress + cfg.batchSize },
             [.respGen, .respGen, .zeroGrad, .backward, .zeroGrad]) := by
      simp [trainIter, hnan]
    rw [hrun] at hok
    cases hok
    exact Or.inl rfl
  · rw [Bool.not_eq_true] at hnan
    simp only [trainIter, hnan, Bool.false_eq_true, if_false] at hok
    repeat' split at hok
    all_goals first
      | (simp at hok; done)
      | (simp only [Except.ok.injEq, Prod.mk.injEq] at hok
         obtain ⟨h1, h2⟩ := hok
         subst h2
         decide)

/-- On a finite-loss training iteration that completes, the events and
the optimizer update: zero-grad, backward, clip to 10, SGD step with the
clipped gradient, and `step` advances. -/
theorem trainIter_finite_ok (cfg : Config) (batchIdx : Nat) (b : Batch) (s : TState)
    (s' : TState) (ev : List Event)
    (hfin : (combinedLoss cfg.rrWeight b.l1 b.l2).isNanOrInf = false)
    (hok : trainIter cfg batchIdx b s = .ok (s', ev)) :
    ev.filter Event.isUpdate = [.zeroGrad, .backward, .clipNorm 10, .optStep]
    ∧ s'.vel = (9/10) * s.vel + clipGradNorm 10 b.grad
    ∧ s'.params
        = s.params - cfg.sched s.step * ((9/10) * s.vel + clipGradNorm 10 b.grad)
    ∧ s'.step = s.step + 1 := by
  simp only [trainIter, hfin, Bool.false_eq_true, if_false] at hok
  repeat' split at hok
  all_goals first
    | (simp at hok; done)
    | (simp only [Except.ok.injEq, Prod.mk.injEq] at hok
       obtain ⟨h1, h2⟩ := hok
       subst h1
       subst h2
       refine ⟨by decide, ?_, ?_, ?_⟩ <;> simp [sgdStep])

/-! ### C1 -/

/-- C1: on a training iteration whose combined relative-response loss is
NaN or infinite, the orchestrator zeroes gradients, backpropagates,
zeroes gradients again, performs no optimizer step, and continues to the
next batch, so the model parameters and the optimizer state (momentum
buffer) after the iteration equal their values before it. -/
theorem C1_nan_guard_preserves_params (cfg : Config) (batchIdx : Nat) (b : Batch)
    (s : TState) (h : (combinedLoss cfg.rrWeight b.l1 b.l2).isNanOrInf = true) :
    ∃ s' ev, trainIter cfg batchIdx b s = .ok (s', ev)
      ∧ s'.params = s.params ∧ s'.vel = s.vel
      ∧ ev.filter Event.isUpdate = [.zeroGrad, .backward, .zeroGrad]
      ∧ Event.optStep ∉ ev := by
  have hrun : trainIter cfg batchIdx b s =
      .ok ({ s with grads := 0, progress := s.progress + cfg.batchSize },
           [.respGen, .respGen, .zeroGrad, .backward, .zeroGrad]) := by
    simp [trainIter, h]
  exact ⟨_, _, hrun, rfl, rfl, by decide, by decide⟩

/-- Witness for C1 at a concrete NaN batch. -/
theorem C1_nan_guard_preserves_params_witness :
    (combinedLoss cfgW.rrWeight bNanW.l1 bNanW.l2).isNanOrInf = true
    ∧ ∃ s' ev, trainIter cfgW 0 bNanW sW = .ok (s', ev)
        ∧ s'.params = sW.params ∧ s'.vel = sW.vel
        ∧ ev.filter Event.isUpdate = [.zeroGrad, .backward, .zeroGrad]
        ∧ Event.optStep ∉ ev :=
  ⟨by decide, C1_nan_guard_preserves_params cfgW 0 bNanW sW (by decide)⟩

/-! ### C2 -/

/-- C2 as stated is false: at this concrete NaN-loss iteration the global
step counter and the running-mean loss accumulator are left unchanged
(`step` stays 5, the mean stays 2) — the `continue` on line 237 skips the
`step += 1` and the mean update — while the same state on a finite-loss
batch advances `step` to 6 and updates the mean to 3/2. -/
theorem C2_counterexample :
    trainIter cfgW 1 bNanW sW =
      .ok ({ sW with progress := 2 },
           [.respGen, .respGen, .zeroGrad, .backward, .zeroGrad])
    ∧ sW.step = 5 ∧ sW.meanRRLoss = some 2
    ∧ trainIter cfgW 1 bFinW sW =
      .ok ({ sW with step := 6, meanRRLoss := some (3/2), progress := 2 },
           [.respGen, .respGen, .zeroGrad, .backward, .clipNorm 10, .optStep]) := by
  refine ⟨?_, rfl, rfl, ?_⟩
  · simp [trainIter, combinedLoss, FV.smul, FV.add, FV.isNanOrInf, cfgW, sW, bNanW]
  · norm_num [trainIter, combinedLoss, FV.smul, FV.add, FV.isNanOrInf, FV.val,
              sgdStep, clipGradNorm, cfgW, sW, bFinW]

/-- C2 amended: on a NaN/Inf-loss iteration only the tqdm progress bar
advances (by `args.batch_size`); the global step counter and the
running-mean loss accumulator are not updated. -/
theorem C2_amended_nan_skips_progress (cfg : Config) (batchIdx : Nat) (b : Batch)
    (s : TState) (h : (combinedLoss cfg.rrWeight b.l1 b.l2).isNanOrInf = true) :
    ∃ s' ev, trainIter cfg batchIdx b s = .ok (s', ev)
      ∧ s'.progress = s.progress + cfg.batchSize
      ∧ s'.step = s.step ∧ s'.meanRRLoss = s.meanRRLoss := by
  have hrun : trainIter cfg batchIdx b s =
      .ok ({ s with grads := 0, progress := s.progress + cfg.batchSize },
           [.respGen, .respGen, .zeroGrad, .backward, .zeroGrad]) := by
    simp [trainIter, h]
  exact ⟨_, _, hrun, rfl, rfl, rfl⟩

/-- Witness for the amended C2 at a concrete NaN batch. -/
theorem C2_amended_nan_skips_progress_witness :
    (combinedLoss cfgW.rrWeight bNanW.l1 bNanW.l2).isNanOrInf = true
    ∧ ∃ s' ev, trainIter cfgW 0 bNanW sW = .ok (s', ev)
        ∧ s'.progress = sW.progress + cfgW.batchSize
        ∧ s'.step = sW.step ∧ s'.meanRRLoss = sW.meanRRLoss :=
  ⟨by decide, C2_amended_nan_skips_progress cfgW 0 bNanW sW (by decide)⟩

/-! ### C5 -/

/-- C5: in every training iteration that completes, the response-map
generator is invoked exactly twice (once per frame direction), and the
combined scalar loss is `rr_weight * (0.5 * rr_loss_1 + 0.5 * rr_loss_2)`:
for finite directional losses `q1`, `q2` it equals
`rr_weight * (1/2 * q1 + 1/2 * q2)`. -/
theorem C5_two_response_maps_weighted_loss (cfg : Config) (batchIdx : Nat)
    (b : Batch) (s : TState) (s' : TState) (ev : List Event) (q1 q2 : ℚ)
    (hl1 : b.l1 = .fin q1) (hl2 : b.l2 = .fin q2)
    (hok : trainIter cfg batchIdx b s = .ok (s', ev)) :
    ev.count Event.respGen = 2
    ∧ combinedLoss cfg.rrWeight b.l1 b.l2
        = .fin (cfg.rrWeight * (1/2 * q1 + 1/2 * q2)) := by
  refine ⟨?_, ?_⟩
  · rcases trainIter_ok_events cfg batchIdx b s s' ev hok with h | h | h <;>
      rw [h] <;> decide
  · rw [hl1, hl2]
    simp [combinedLoss, FV.smul, FV.add]

/-- Witness for C5 at a concrete finite batch. -/
theorem C5_two_response_maps_weighted_loss_witness :
    ∃ s' ev, trainIter cfgW 0 bFinW sW = .ok (s', ev)
      ∧ ev.count Event.respGen = 2
      ∧ combinedLoss cfgW.rrWeight bFinW.l1 bFinW.l2
          = .fin (cfgW.rrWeight * (1/2 * 1 + 1/2 * 1)) := by
  have htr : trainIter cfgW 0 bFinW sW =
      .ok ({ sW with step := 6, meanRRLoss := some 1, progress := 2 },
           [.respGen, .respGen, .zeroGrad, .backward, .clipNorm 10, .optStep,
            .display]) := by
    norm_num [trainIter, combinedLoss, FV.smul, FV.add, FV.isNanOrInf, FV.val,
              sgdStep, clipGradNorm, cfgW, sW, bFinW]
  obtain ⟨h1, h2⟩ :=
    C5_two_response_maps_weighted_loss cfgW 0 bFinW sW _ _ 1 1 rfl rfl htr
  exact ⟨_, _, htr, h1, h2⟩

/-! ### C6 -/

/-- C6: on a training iteration with finite loss that completes, the
update sequence is exactly zero-grad, backward, clip the global gradient
norm to 10.0, optimizer step, in that order; the optimizer step applies
the SGD-with-momentum update using the clipped gradient. -/
theorem C6_finite_update_sequence (cfg : Config) (batchIdx : Nat) (b : Batch)
    (s : TState) (s' : TState) (ev : List Event)
    (hfin : (combinedLoss cfg.rrWeight b.l1 b.l2).isNanOrInf = false)
    (hok : trainIter cfg batchIdx b s = .ok (s', ev)) :
    ev.filter Event.isUpdate = [.zeroGrad, .backward, .clipNorm 10, .optStep]
    ∧ s'.vel = (9/10) * s.vel + clipGradNorm 10 b.grad
    ∧ s'.params
        = s.params - cfg.sched s.step * ((9/10) * s.vel + clipGradNorm 10 b.grad) := by
  obtain ⟨h1, h2, h3, _⟩ := trainIter_finite_ok cfg batchIdx b s s' ev hfin hok
  exact ⟨h1, h2, h3⟩

/-- Witness for C6 at a concrete finite batch. -/
theorem C6_finite_update_sequence_witness :
    ∃ s' ev, trainIter cfgW 0 bFinW sW = .ok (s', ev)
      ∧ ev.filter Event.isUpdate = [.zeroGrad, .backward, .clipNorm 10, .optStep]
      ∧ s'.vel = (9/10) * sW.vel + clipGradNorm 10 bFinW.grad
      ∧ s'.params = sW.params
          - cfgW.sched sW.step * ((9/10) * sW.vel + clipGradNorm 10 bFinW.grad) := by
  have htr : trainIter cfgW 0 bFinW sW =
      .ok ({ sW with step := 6, meanRRLoss := some 1, progress := 2 },
           [.respGen, .respGen, .zeroGrad, .backward, .clipNorm 10, .optStep,
            .display]) := by
    norm_num [trainIter, combinedLoss, FV.smul, FV.add, FV.isNanOrInf, FV.val,
              sgdStep, clipGradNorm, cfgW, sW, bFinW]
  obtain ⟨h1, h2, h3⟩ := C6_finite_update_sequence cfgW 0 bFinW sW _ _ (by decide) htr
  exact ⟨_, _, htr, h1, h2, h3⟩

/-! ### Helper lemmas about the validation pass -/

/-- Evaluation of the first validation iteration (`batch == 0`): the
three accuracy means are assigned, `validation_step` advances, and the
batch-0 display fires. -/
theorem valIter_eval_zero (cfg : Config) (b : VBatch) (s : TState)
    (hd : cfg.displayInterval ≠ 0) :
    valIter cfg 0 b s = .ok
      ({ s with
          meanAcc1 := some ((1/2) * (b.ratios s.params).r1 + (1/2) * (b.ratios s.params).r4),
          meanAcc2 := some ((1/2) * (b.ratios s.params).r2 + (1/2) * (b.ratios s.params).r5),
          meanAcc3 := some ((1/2) * (b.ratios s.params).r3 + (1/2) * (b.ratios s.params).r6),
          validationStep := s.validationStep + 1,
          progress := s.progress + b.size },
       [.respGen, .respGen, .display]) := by
  simp [valIter, hd]

/-- Evaluation of a later validation iteration when the three accuracy
means are already assigned. -/
theorem valIter_eval_some (cfg : Config) (batchIdx : Nat) (b : VBatch) (s : TState)
    (m1 m2 m3 : ℚ) (hd : cfg.displayInterval ≠ 0) (h0 : batchIdx ≠ 0)
    (hm1 : s.meanAcc1 = some m1) (hm2 : s.meanAcc2 = some m2)
    (hm3 : s.meanAcc3 = some m3) :
    valIter cfg batchIdx b s = .ok
      ({ s with
          meanAcc1 := some ((m1 * (batchIdx : ℚ)
            + ((1/2) * (b.ratios s.params).r1 + (1/2) * (b.ratios s.params).r4))
            / ((batchIdx : ℚ) + 1)),
          meanAcc2 := some ((m2 * (batchIdx : ℚ)
            + ((1/2) * (b.ratios s.params).r2 + (1/2) * (b.ratios s.params).r5))
            / ((batchIdx : ℚ) + 1)),
          meanAcc3 := some ((m3 * (batchIdx : ℚ)
            + ((1/2) * (b.ratios s.params).r3 + (1/2) * (b.ratios s.params).r6))
            / ((batchIdx : ℚ) + 1)),
          validationStep := s.validationStep + 1,
          progress := s.progress + b.size },
       [.respGen, .respGen]
         ++ if batchIdx % cfg.displayInterval = 0 then [.display] else []) := by
  simp [valIter, hd, h0, hm1, hm2, hm3]

/-- A validation iteration whose batch index is 0 or whose three means
are already assigned completes, preserves the model parameters, the
optimizer state and the global step, assigns all three means, and emits
no checkpoint event. -/
theorem valIter_ok (cfg : Config) (batchIdx : Nat) (b : VBatch) (s : TState)
    (hd : cfg.displayInterval ≠ 0)
    (hinv : batchIdx = 0
      ∨ (s.meanAcc1.isSome ∧ s.meanAcc2.isSome ∧ s.meanAcc3.isSome)) :
    ∃ s' ev, valIter cfg batchIdx b s = .ok (s', ev)
      ∧ (s'.meanAcc1.isSome ∧ s'.meanAcc2.isSome ∧ s'.meanAcc3.isSome)
      ∧ s'.params = s.params ∧ s'.vel = s.vel ∧ s'.step = s.step
      ∧ ev.count Event.saveCheckpoint = 0 := by
  by_cases h0 : batchIdx = 0
  · subst h0
    exact ⟨_, _, valIter_eval_zero cfg b s hd, ⟨rfl, rfl, rfl⟩, rfl, rfl, rfl,
      by decide⟩
  · rcases hinv with h0' | ⟨h1, h2, h3⟩
    · exact absurd h0' h0
    · obtain ⟨m1, hm1⟩ := Option.isSome_iff_exists.mp h1
      obtain ⟨m2, hm2⟩ := Option.isSome_iff_exists.mp h2
      obtain ⟨m3, hm3⟩ := Option.isSome_iff_exists.mp h3
      refine ⟨_, _, valIter_eval_some cfg batchIdx b s m1 m2 m3 hd h0 hm1 hm2 hm3,
        ⟨rfl, rfl, rfl⟩, rfl, rfl, rfl, ?_⟩
      by_cases hdm : batchIdx % cfg.displayInterval = 0 <;> simp [hdm]

/-- The validation loop completes whenever it starts at batch index 0 (or
with already-assigned means), preserving parameters, optimizer state and
step; on a nonempty loader all three means end up assigned; no checkpoint
event is emitted inside the loop. -/
theorem runValBatches_ok (cfg : Config) (hd : cfg.displayInterval ≠ 0)
    (batches : List VBatch) :
    ∀ (batchIdx : Nat) (s : TState),
      (batchIdx = 0 ∨ (s.meanAcc1.isSome ∧ s.meanAcc2.isSome ∧ s.meanAcc3.isSome)) →
      ∃ s' ev, runValBatches cfg batches batchIdx s = .ok (s', ev)
        ∧ s'.params = s.params ∧ s'.vel = s.vel ∧ s'.step = s.step
        ∧ (batches = [] → s' = s)
        ∧ (batches ≠ [] →
            s'.meanAcc1.isSome ∧ s'.meanAcc2.isSome ∧ s'.meanAcc3.isSome)
        ∧ ev.count Event.saveCheckpoint = 0 := by
  induction batches with
  | nil =>
    intro batchIdx s _
    exact ⟨s, [], rfl, rfl, rfl, rfl, fun _ => rfl, fun h => absurd rfl h, rfl⟩
  | cons b rest ih =>
    intro batchIdx s hinv
    obtain ⟨s1, ev1, hit, hsome1, hp1, hv1, hst1, hc1⟩ :=
      valIter_ok cfg batchIdx b s hd hinv
    obtain ⟨s2, ev2, hrest, hp2, hv2, hst2, hnil2, hmeans2, hc2⟩ :=
      ih (batchIdx + 1) s1 (Or.inr hsome1)
    refine ⟨s2, ev1 ++ ev2, ?_, ?_, ?_, ?_, ?_, ?_, ?_⟩
    · simp [runValBatches, hit, hrest]
    · rw [hp2, hp1]
    · rw [hv2, hv1]
    · rw [hst2, hst1]
    · intro h; exact absurd h (by simp)
    · intro _
      rcases hrest0 : rest with _ | ⟨b2, rest2⟩
      · rw [hrest0] at hnil2
        rw [hnil2 rfl]
        exact hsome1
      · rw [hrest0] at hmeans2
        exact hmeans2 (by simp)
    · simp [List.count_append, hc1, hc2]

/-! ### C4 -/

/-- C4: at the end of a validating epoch (display interval nonzero,
validation loader nonempty), the validation pass completes and persists
exactly one checkpoint; it contains the model weights, the optimizer
state, `cur_epoch + 1`, the global step and the primary accuracy metric
(`mean_accuracy_1`), and its file name embeds `cur_epoch` and the three
mean accuracy values. -/
theorem C4_checkpoint_contents (cfg : Config) (curEpoch : Nat) (s : TState)
    (hd : cfg.displayInterval ≠ 0) (hne : cfg.valData validationSeed ≠ []) :
    ∃ s1 ev ck, validationPhase cfg curEpoch s = .ok (s1, ev, ck)
      ∧ ev.count Event.saveCheckpoint = 1
      ∧ ck.model = s.params ∧ ck.optimizer = s.vel
      ∧ ck.epoch = curEpoch + 1 ∧ ck.step = s.step
      ∧ s1.meanAcc1 = some ck.validationLoss
      ∧ ck.fileEpoch = curEpoch ∧ ck.fileM1 = ck.validationLoss
      ∧ s1.meanAcc2 = some ck.fileM2 ∧ s1.meanAcc3 = some ck.fileM3 := by
  obtain ⟨s1, ev0, hrun, hp, hv, hst, _, hmeans, hcnt⟩ :=
    runValBatches_ok cfg hd (cfg.valData validationSeed) 0
      { s with rng := validationSeed, progress := 0 } (Or.inl rfl)
  obtain ⟨h1, h2, h3⟩ := hmeans hne
  obtain ⟨m1, hm1⟩ := Option.isSome_iff_exists.mp h1
  obtain ⟨m2, hm2⟩ := Option.isSome_iff_exists.mp h2
  obtain ⟨m3, hm3⟩ := Option.isSome_iff_exists.mp h3
  refine ⟨s1, ev0 ++ [.saveCheckpoint],
    { model := s1.params, optimizer := s1.vel, epoch := curEpoch + 1,
      step := s1.step, validationLoss := m1, fileEpoch := curEpoch,
      fileM1 := m1, fileM2 := m2, fileM3 := m3 },
    ?_, ?_, hp, hv, rfl, hst, hm1, rfl, rfl, hm2, hm3⟩
  · simp [validationPhase, hrun, hm1, hm2, hm3]
  · simp [List.count_append, hcnt]

/-- Witness fixtures: a validation batch with constant ratios, and a
configuration whose validation loader yields it. -/
def vbW : VBatch := { ratios := fun _ => ⟨1, 1, 1, 1, 1, 1⟩, size := 2 }

/-- A configuration with a nonempty validation loader. -/
def cfgV : Config :=
  { rrWeight := 1, batchSize := 2, displayInterval := 10, validationInterval := 2,
    numEpoch := 0, sched := fun _ => 0, trainData := fun _ => [],
    valData := fun _ => [vbW] }

/-- Witness for C4 at a concrete validating epoch. -/
theorem C4_checkpoint_contents_witness :
    ∃ s1 ev ck, validationPhase cfgV 0 sW = .ok (s1, ev, ck)
      ∧ ev.count Event.saveCheckpoint = 1
      ∧ ck.model = sW.params ∧ ck.optimizer = sW.vel
      ∧ ck.epoch = 0 + 1 ∧ ck.step = sW.step
      ∧ s1.meanAcc1 = some ck.validationLoss
      ∧ ck.fileEpoch = 0 ∧ ck.fileM1 = ck.validationLoss
      ∧ s1.meanAcc2 = some ck.fileM2 ∧ s1.meanAcc3 = some ck.fileM3 :=
  C4_checkpoint_contents cfgV 0 sW (by decide) (by simp [cfgV])

/-! ### C8 -/

/-- The validation metrics of a validation-pass result: the three mean
accuracies. -/
def valMetrics (r : TState × List Event × SavedCheckpoint) :
    Option ℚ × Option ℚ × Option ℚ :=
  (r.1.meanAcc1, r.1.meanAcc2, r.1.meanAcc3)

/-- C8: the training RNG seed of epoch `e` is `10086 + e`, a function of
the epoch number alone; the validation seed is the fixed 10086; an epoch
(and in particular its validation pass) does not depend on the incoming
RNG state, and the validation metrics do not depend on the epoch number
either — so two runs executing the same validation pass on the same
parameters produce identical metrics. -/
theorem C8_deterministic_reseeding (cfg : Config) (e e' : Nat) (s : TState)
    (r r' : Int) :
    epochSeed e = 10086 + e
    ∧ validationSeed = 10086
    ∧ runEpoch cfg e { s with rng := r } = runEpoch cfg e { s with rng := r' }
    ∧ validationPhase cfg e { s with rng := r }
        = validationPhase cfg e { s with rng := r' }
    ∧ (validationPhase cfg e s).map valMetrics
        = (validationPhase cfg e' s).map valMetrics := by
  refine ⟨rfl, rfl, rfl, rfl, ?_⟩
  unfold validationPhase
  cases hrv : runValBatches cfg (cfg.valData validationSeed) 0
      { s with rng := validationSeed, progress := 0 } with
  | error err => simp [hrv]
  | ok p =>
    obtain ⟨s1, ev⟩ := p
    cases hm1 : s1.meanAcc1 <;> cases hm2 : s1.meanAcc2 <;>
      cases hm3 : s1.meanAcc3 <;> simp [hrv, hm1, hm2, hm3, valMetrics, Except.map]

/-! ### C9 -/

/-- C9: given a completed training phase for epoch `e`, the validation
pass (with its accuracy computation and checkpoint persistence) runs if
and only if `e % validation_interval == 0`; on all other epochs the epoch
ends directly with the training result, no validation events and no
checkpoint. -/
theorem C9_validation_gating (cfg : Config) (e : Nat) (s : TState) (s1 : TState)
    (ev1 : List Event) (hv : cfg.validationInterval ≠ 0)
    (htrain : runBatches cfg (cfg.trainData (epochSeed e)) 0
        { s with rng := epochSeed e, progress := 0 } = .ok (s1, ev1)) :
    (e % cfg.validationInterval ≠ 0 → runEpoch cfg e s = .ok ⟨s1, ev1, none⟩)
    ∧ (e % cfg.validationInterval = 0 → ∀ s2 ev2 ck,
        validationPhase cfg e s1 = .ok (s2, ev2, ck) →
        runEpoch cfg e s = .ok ⟨s2, ev1 ++ ev2, some ck⟩)
    ∧ (e % cfg.validationInterval = 0 → ∀ err,
        validationPhase cfg e s1 = .error err →
        runEpoch cfg e s = .error err) := by
  refine ⟨?_, ?_, ?_⟩
  · intro hne
    simp [runEpoch, htrain, hv, hne]
  · intro heq s2 ev2 ck hval
    simp [runEpoch, htrain, hv, heq, hval]
  · intro heq err hval
    simp [runEpoch, htrain, hv, heq, hval]

/-- Witness for C9 at a concrete non-validating and a concrete validating
epoch configuration. -/
theorem C9_validation_gating_witness :
    (1 % cfgW.validationInterval ≠ 0 →
      runEpoch cfgW 1 sW = .ok ⟨{ sW with rng := epochSeed 1, progress := 0 }, [], none⟩)
    ∧ (1 % cfgW.validationInterval = 0 → ∀ s2 ev2 ck,
        validationPhase cfgW 1 { sW with rng := epochSeed 1, progress := 0 }
          = .ok (s2, ev2, ck) →
        runEpoch cfgW 1 sW = .ok ⟨s2, [] ++ ev2, some ck⟩)
    ∧ (1 % cfgW.validationInterval = 0 → ∀ err,
        validationPhase cfgW 1 { sW with rng := epochSeed 1, progress := 0 }
          = .error err →
        runEpoch cfgW 1 sW = .error err) :=
  C9_validation_gating cfgW 1 sW _ [] (by decide) rfl

/-! ### Helper lemmas about the state-dict merge -/

/-- Lookup through the update-map of `dictUpdate`: each entry of `base`
keeps its key; its value becomes `upd`'s value for that key when `upd`
has it. -/
theorem dictLookup_mapUpdate (upd base : StateDict) (k : String) :
    dictLookup k (base.map fun kv =>
      match dictLookup kv.1 upd with
      | some v => (kv.1, v)
      | none => kv)
    = (dictLookup k base).map fun v => (dictLookup k upd).getD v := by
  induction base with
  | nil => rfl
  | cons kv rest ih =>
    cases hu : dictLookup kv.1 upd with
    | none =>
      by_cases hk : kv.1 = k
      · subst hk
        simp [dictLookup, hu]
      · simp [dictLookup, hu, hk, ih]
    | some v =>
      by_cases hk : kv.1 = k
      · subst hk
        simp [dictLookup, hu]
      · simp [dictLookup, hu, hk, ih]

/-- Lookup in a left part that has the key ignores the appended part. -/
theorem dictLookup_append_left (l1 l2 : StateDict) (k : String)
    (h : (dictLookup k l1).isSome) :
    dictLookup k (l1 ++ l2) = dictLookup k l1 := by
  induction l1 with
  | nil => simp [dictLookup] at h
  | cons kv rest ih =>
    by_cases hk : kv.1 = k
    · simp [dictLookup, hk]
    · simp only [dictLookup, hk, if_false, List.cons_append] at *
      exact ih h

/-- Filtering `pre` to the keys of `base` does not change lookups of keys
that `base` has. -/
theorem dictLookup_filterKeys (pre base : StateDict) (k : String)
    (hk : (dictLookup k base).isSome) :
    dictLookup k (dictFilterKeys pre base) = dictLookup k pre := by
  induction pre with
  | nil => rfl
  | cons kv rest ih =>
    by_cases hke : kv.1 = k
    · subst hke
      simp [dictFilterKeys, List.filter_cons, hk, dictLookup]
    · cases hp : (dictLookup kv.1 base).isSome
      · simp only [dictFilterKeys, List.filter_cons, hp] at *
        simp only [dictLookup, hke, if_false]
        exact ih
      · simp only [dictFilterKeys, List.filter_cons, hp] at *
        simp only [dictLookup, hke, if_false]
        exact ih

/-! ### C3 -/

/-- C3 as stated is false: this checkpoint file records an optimizer
state of 5, but after the restore the optimizer's momentum state is the
fresh 0, not 5 — the loader never reads the file's `optimizer` entry —
while epoch, step and the name-matched model entries are restored (the
unknown key `"extra"` is dropped, the missing key `"b"` keeps its fresh
value) and `validation_step` is reset to 0. -/
theorem C3_counterexample :
    initTrainingState true
        (some { step := 7, epoch := 3, model := [("w", 5), ("extra", 9)],
                optimizer := 5, validationLoss := 1 })
        [("w", 1), ("b", 2)]
      = .ok { epoch := 3, step := 7, validationStep := 0,
              modelState := [("w", 5), ("b", 2)], optimizerVel := 0 }
    ∧ (0 : ℚ) ≠ 5 := by
  constructor
  · rfl
  · norm_num

/-- C3 amended: on resume, epoch and global step take the values recorded
in the checkpoint file and the model parameters are restored by
name-matching (a key present in both takes the checkpoint's value, a key
missing from the checkpoint keeps its fresh value, unknown checkpoint
keys are tolerated); but the optimizer state is never restored (it stays
the fresh zero momentum) and the validation step is reset to 0, not
restored. -/
theorem C3_amended_restore (pre : CheckpointFile) (fresh : StateDict) :
    ∃ r, initTrainingState true (some pre) fresh = .ok r
      ∧ r.epoch = pre.epoch ∧ r.step = pre.step
      ∧ r.validationStep = 0 ∧ r.optimizerVel = 0
      ∧ ∀ k v, dictLookup k fresh = some v →
          dictLookup k r.modelState = some ((dictLookup k pre.model).getD v) := by
  refine ⟨_, rfl, rfl, rfl, rfl, rfl, ?_⟩
  intro k v hkv
  have hsome : (dictLookup k fresh).isSome := by rw [hkv]; rfl
  show dictLookup k (dictUpdate fresh (dictFilterKeys pre.model fresh))
      = some ((dictLookup k pre.model).getD v)
  unfold dictUpdate
  rw [dictLookup_append_left _ _ _
      (by rw [dictLookup_mapUpdate, hkv]; rfl),
    dictLookup_mapUpdate, hkv, dictLookup_filterKeys pre.model fresh k hsome]
  rfl

/-- Witness for the amended C3 at a concrete checkpoint file and fresh
model: the shared key takes the checkpoint value, the missing key keeps
its fresh value. -/
theorem C3_amended_restore_witness :
    ∃ r, initTrainingState true
        (some { step := 7, epoch := 3, model := [("w", 5), ("extra", 9)],
                optimizer := 5, validationLoss := 1 })
        [("w", 1), ("b", 2)] = .ok r
      ∧ r.epoch = 3 ∧ r.step = 7 ∧ r.validationStep = 0 ∧ r.optimizerVel = 0
      ∧ dictLookup "w" r.modelState = some 5
      ∧ dictLookup "b" r.modelState = some 2 := by
  obtain ⟨r, hr, he, hs, hv, ho, hlook⟩ := C3_amended_restore
      { step := 7, epoch := 3, model := [("w", 5), ("extra", 9)],
        optimizer := 5, validationLoss := 1 }
      [("w", 1), ("b", 2)]
  exact ⟨r, hr, he, hs, hv, ho,
    by simpa [dictLookup] using hlook "w" 1 rfl,
    by simpa [dictLookup] using hlook "b" 2 rfl⟩

/-! ### C7 -/

/-- C7: each configuration error — resume requested without a path,
missing data root, or a resume path that does not exist — makes the
program abort with an exception before the epoch loop produces anything:
the whole run evaluates to an error and no training state or checkpoint
is produced. -/
theorem C7_config_errors_abort (a : Args) (file : Option CheckpointFile)
    (fresh : StateDict) (cfg : Config) (p0 : ℚ)
    (h : (a.loadTrainedModel = true ∧ a.trainedModelPath = none)
       ∨ a.dataRootExists = false
       ∨ (a.loadTrainedModel = true ∧ file = none)) :
    ∃ e, runProgram a file fresh cfg p0 = .error e := by
  rcases h with ⟨hl, hp⟩ | hd | ⟨hl, hf⟩
  · exact ⟨.ioError, by simp [runProgram, validateArgs, hl, hp]⟩
  · cases hl : a.loadTrainedModel
    · exact ⟨.ioError, by simp [runProgram, validateArgs, hl, hd]⟩
    · cases hp : a.trainedModelPath with
      | none => exact ⟨.ioError, by simp [runProgram, validateArgs, hl, hp]⟩
      | some p => exact ⟨.ioError, by simp [runProgram, validateArgs, hl, hp, hd]⟩
  · cases hp : a.trainedModelPath with
    | none => exact ⟨.ioError, by simp [runProgram, validateArgs, hl, hp]⟩
    | some p =>
      cases hd : a.dataRootExists
      · exact ⟨.ioError, by simp [runProgram, validateArgs, hl, hp, hd]⟩
      · exact ⟨.osError,
          by simp [runProgram, validateArgs, initTrainingState, hl, hp, hd, hf]⟩

/-- Witness for C7: a missing data root aborts the run. -/
theorem C7_config_errors_abort_witness :
    ∃ e, runProgram ⟨false, none, false⟩ none [] cfgW 0 = .error e :=
  C7_config_errors_abort ⟨false, none, false⟩ none [] cfgW 0 (Or.inr (Or.inl rfl))

/-! ### C10 -/

/-- A fresh training state: nothing assigned yet, initial seed. -/
def s0W : TState :=
  { params := 3, vel := 0, grads := 0, step := 0, validationStep := 0,
    meanRRLoss := none, meanAcc1 := none, meanAcc2 := none, meanAcc3 := none,
    rng := 10085, progress := 0 }

/-- A configuration whose epoch-0 loader yields one finite batch and
whose epoch-1 loader yields a NaN batch followed by a finite batch. -/
def cfgX : Config :=
  { rrWeight := 1, batchSize := 2, displayInterval := 10, validationInterval := 2,
    numEpoch := 1, sched := fun _ => 0,
    trainData := fun seed => if seed = epochSeed 0 then [bFinW] else [bNanW, bFinW],
    valData := fun _ => [vbW] }

/-- C10 as stated is false: in epoch 1 of this two-epoch run the first
batch has NaN loss and the second batch has finite loss, yet no
`NameError` is raised and the run completes — `mean_rr_loss` is a
script-scoped variable, so the value assigned during epoch 0 is still
alive (the claim's conclusion only holds when no earlier epoch assigned
it). -/
theorem C10_counterexample :
    cfgX.trainData (epochSeed 1) = [bNanW, bFinW]
    ∧ (combinedLoss cfgX.rrWeight bNanW.l1 bNanW.l2).isNanOrInf = true
    ∧ (combinedLoss cfgX.rrWeight bFinW.l1 bFinW.l2).isNanOrInf = false
    ∧ ∃ r, runEpochs cfgX [0, 1] s0W = .ok r :=
  ⟨by decide, by decide, by decide, ⟨_, rfl⟩⟩

/-- C10 amended: when the running-mean variable has never been assigned
in the process (for instance in the first epoch of a run), an epoch whose
first batch produces a NaN/Inf loss and whose second batch produces a
finite loss raises an uncaught `NameError` at the running-mean update of
that later iteration. -/
theorem C10_amended_nameError (cfg : Config) (b0 b1 : Batch)
    (rest : List Batch) (s : TState)
    (h0 : (combinedLoss cfg.rrWeight b0.l1 b0.l2).isNanOrInf = true)
    (h1 : (combinedLoss cfg.rrWeight b1.l1 b1.l2).isNanOrInf = false)
    (hm : s.meanRRLoss = none) :
    runBatches cfg (b0 :: b1 :: rest) 0 s = .error .nameError := by
  have hit0 : trainIter cfg 0 b0 s =
      .ok ({ s with grads := 0, progress := s.progress + cfg.batchSize },
           [.respGen, .respGen, .zeroGrad, .backward, .zeroGrad]) := by
    simp [trainIter, h0]
  have hit1 : trainIter cfg 1 b1
      { s with grads := 0, progress := s.progress + cfg.batchSize }
      = .error .nameError := by
    simp [trainIter, sgdStep, h1, hm]
  simp [runBatches, hit0, hit1]

/-- Witness for the amended C10: a fresh first epoch with a NaN first
batch and a finite second batch raises `NameError`. -/
theorem C10_amended_nameError_witness :
    runBatches cfgW [bNanW, bFinW] 0 s0W = .error .nameError :=
  C10_amended_nameError cfgW bNanW bFinW [] s0W (by decide) (by decide) rfl

end DenseDescriptor
